import Mathlib

/-!
Verification development for the ChargePi/chargeflow OCPP-J message
validator.  The definitions below are a shallow embedding of the Go
sources: `pkg/ocpp/message.go`, `pkg/parser/result.go`,
`pkg/parser/parser.go`, `pkg/parser/parser_v2.go`,
`pkg/validator/validator.go`, `pkg/schema_registry/*.go`,
`pkg/report/result_aggregator.go`, `pkg/report/statistics.go` and
`internal/validation/service.go`.

Modelling conventions:
* Go maps become association lists with insert-or-replace semantics
  (`mapInsert` / `mapLookup`); Go map equality corresponds to pointwise
  content equality, which for the states produced by the embedded code
  (no duplicate keys) agrees with list equality.
* JSON values that the decoder type-switches on are modelled by `JVal`:
  numbers (the decoders only inspect integral message-type ids, so the
  payload of `JVal.num` is an `Int`), strings, and an opaque family
  `JVal.other n` standing for every other JSON value (objects, arrays,
  booleans); the decoder never looks inside those, it only stores them.
* A line whose `json.Unmarshal` fails is modelled as `none` in the input
  list `List (Option (List JVal))`; a successfully unmarshalled JSON
  array is `some arr`.
* The global `viper.GetString "response-type"` configuration read by
  `ParserV2.parse` is passed in explicitly as the `cfg` argument.
* Go struct copies out of a map (`results := fp.results[uniqueId]`) are
  modelled by binding the looked-up value; mutations of such a copy are
  only visible in the final state where the Go code stores the copy back
  (`fp.results[uniqueId] = results`), exactly as in the source.
-/

set_option autoImplicit false

namespace Chargeflow

/-- JSON values as far as the decoders inspect them: a number, a string,
or an opaque other value (object/array/bool) that is stored unexamined. -/
inductive JVal where
  | num (n : Int)
  | str (s : String)
  | other (tag : Nat)
deriving DecidableEq, Repr

/-- Rendering used where the Go code formats an element with `%v`. -/
def JVal.render : JVal → String
  | .num n => toString n
  | .str s => s
  | .other tag => "value " ++ toString tag

/-- Insert-or-replace into an association list (Go `m[k] = v`). -/
def mapInsert {α : Type} (m : List (String × α)) (k : String) (v : α) :
    List (String × α) :=
  match m with
  | [] => [(k, v)]
  | (k', v') :: rest =>
      if k' = k then (k, v) :: rest else (k', v') :: mapInsert rest k v

/-- Lookup in an association list (Go `v, ok := m[k]`). -/
def mapLookup {α : Type} (m : List (String × α)) (k : String) : Option α :=
  match m with
  | [] => none
  | (k', v') :: rest => if k' = k then some v' else mapLookup rest k

/-! ## Message model (`pkg/ocpp/message.go`) -/

/-- The OCPP-J message union: `Call` (type 2), `CallResult` (type 3) and
`CallError` (type 4), with the fields the Go structs carry.  Payloads are
`Option JVal`: `none` models a nil Go interface value. -/
inductive Message where
  | call (uniqueId action : String) (payload : Option JVal)
  | callResult (uniqueId action : String) (payload : Option JVal)
  | callError (uniqueId errorCode errorDescription : String)
      (errorDetails : Option JVal)
deriving DecidableEq, Repr

def Message.getMessageTypeId : Message → Int
  | .call .. => 2
  | .callResult .. => 3
  | .callError .. => 4

def Message.getUniqueId : Message → String
  | .call uid _ _ => uid
  | .callResult uid _ _ => uid
  | .callError uid _ _ _ => uid

def Message.getAction : Message → String
  | .call _ action _ => action
  | .callResult _ action _ => action
  | .callError _ errorCode _ _ => errorCode

def Message.getPayload : Message → Option JVal
  | .call _ _ p => p
  | .callResult _ _ p => p
  | .callError _ _ _ details => details

/-- `ocpp.IsErrorCodeValid`: membership in the fixed error-code list. -/
def isErrorCodeValid (code : String) : Bool :=
  code = "NotImplemented" || code = "NotSupported" || code = "InternalError" ||
  code = "MessageTypeNotSupported" || code = "ProtocolError" ||
  code = "SecurityError" || code = "FormationViolation" ||
  code = "FormatViolation" || code = "PropertyConstraintViolation" ||
  code = "OccurenceConstraintViolation" || code = "OccurrenceConstraintViolation" ||
  code = "TypeConstraintViolation" || code = "GenericError"

/-! ## Parser results (`pkg/parser/result.go`) -/

/-- `parser.Result`: an optional decoded message, a validity flag and an
ordered error list. -/
structure Result where
  message : Option Message
  isValid : Bool
  errors : List String
deriving DecidableEq, Repr

/-- `parser.NewResult()`: valid, no message, empty error list. -/
def Result.new : Result := { message := none, isValid := true, errors := [] }

/-- The Go zero value of `parser.Result` (`isValid` defaults to false,
`errors` to nil); this is what an unmentioned struct field holds. -/
def Result.zero : Result := { message := none, isValid := false, errors := [] }

def Result.addError (v : Result) (err : String) : Result :=
  { v with isValid := false, errors := v.errors ++ [err] }

def Result.IsValid (v : Result) : Bool := v.isValid

def Result.setMessage (v : Result) (m : Message) : Result :=
  { v with message := some m }

/-- `parser.RequestResponseResult`: the per-correlation-id exchange with
Request / Response / ResponseError slots. -/
structure RequestResponseResult where
  Request : Result
  Response : Result
  ResponseError : Result
deriving DecidableEq, Repr

def RequestResponseResult.addRequestError (r : RequestResponseResult)
    (err : String) : RequestResponseResult :=
  { r with Request := r.Request.addError err }

def RequestResponseResult.addResponseError (r : RequestResponseResult)
    (err : String) : RequestResponseResult :=
  { r with Response := r.Response.addError err }

def RequestResponseResult.addResponseErrorError (r : RequestResponseResult)
    (err : String) : RequestResponseResult :=
  { r with ResponseError := r.ResponseError.addError err }

def RequestResponseResult.addRequest (r : RequestResponseResult)
    (m : Message) : RequestResponseResult :=
  { r with Request := r.Request.setMessage m }

def RequestResponseResult.addResponse (r : RequestResponseResult)
    (m : Message) : RequestResponseResult :=
  { r with Response := r.Response.setMessage m }

/-- `RequestResponseResult.IsValid`: request AND response slot validity
(the ResponseError slot is not consulted). -/
def RequestResponseResult.IsValid (r : RequestResponseResult) : Bool :=
  r.Request.IsValid && r.Response.IsValid

/-- `GetRequest`: the request message and whether it is non-nil. -/
def RequestResponseResult.getRequest (r : RequestResponseResult) :
    Option Message × Bool :=
  (r.Request.message, r.Request.message.isSome)

/-- `GetResponse`: the response message and whether it is non-nil. -/
def RequestResponseResult.getResponse (r : RequestResponseResult) :
    Option Message × Bool :=
  (r.Response.message, r.Response.message.isSome)

/-! ## `ParserV2` (`pkg/parser/parser_v2.go`) -/

/-- The mutable state of a `ParserV2`: `results` maps correlation ids to
exchanges, `nonParsable` maps line keys to diagnostic results. -/
structure ParserV2State where
  results : List (String × RequestResponseResult)
  nonParsable : List (String × Result)
deriving DecidableEq, Repr

def ParserV2State.empty : ParserV2State := { results := [], nonParsable := [] }

/-- `ParserV2.parse` (one already-unmarshalled line).  `index` is the
1-based line number, `cfg` is the global `response-type` setting. -/
def parseV2Line (cfg : String) (st : ParserV2State) (index : Nat)
    (arr : List JVal) : ParserV2State :=
  let result := Result.new
  let line := "line " ++ toString index
  if arr.length < 3 then
    let r := result.addError
      ("Expected at least 3 elements in the message, got " ++ toString arr.length)
    { st with nonParsable := mapInsert st.nonParsable line r }
  else
    match arr.getD 0 (JVal.other 0) with
    | JVal.str _ | JVal.other _ =>
        let r := result.addError "Expected first element to be a number (message type ID)"
        { st with nonParsable := mapInsert st.nonParsable line r }
    | JVal.num typeId =>
        match arr.getD 1 (JVal.other 0) with
        | JVal.num _ | JVal.other _ =>
            let r := result.addError "Expected second element to be a string (unique ID)"
            { st with nonParsable := mapInsert st.nonParsable line r }
        | JVal.str uid =>
            let result := if uid = "" then
                result.addError "Unique ID is missing in the message" else result
            let uniqueId := if uid = "" then line else uid
            if typeId = 2 then
              -- CALL: create the exchange on first reference, then work on a
              -- struct copy that is stored back only on the success path.
              let st := if (mapLookup st.results uniqueId).isNone then
                  let entry : RequestResponseResult :=
                    { Request := result, Response := Result.new,
                      ResponseError := Result.zero }
                  { st with results := mapInsert st.results uniqueId entry }
                else st
              let dflt : RequestResponseResult :=
                { Request := Result.new, Response := Result.new,
                  ResponseError := Result.zero }
              let results := (mapLookup st.results uniqueId).getD dflt
              if arr.length ≠ 4 then
                -- `results.AddRequestError(...)` mutates the local copy only;
                -- the Go code breaks without storing it back.
                st
              else
                match arr.getD 2 (JVal.other 0) with
                | JVal.num _ | JVal.other _ =>
                    -- `AddRequestError` on the local copy, again not stored.
                    st
                | JVal.str action =>
                    let call := Message.call uniqueId action
                      (some (arr.getD 3 (JVal.other 0)))
                    { st with results := mapInsert st.results uniqueId (results.addRequest call) }
            else if typeId = 3 then
              -- CALL_RESULT
              let st := if (mapLookup st.results uniqueId).isNone then
                  let entry : RequestResponseResult :=
                    { Request := Result.new, Response := result,
                      ResponseError := Result.zero }
                  { st with results := mapInsert st.results uniqueId entry }
                else st
              let dflt : RequestResponseResult :=
                { Request := Result.new, Response := Result.new,
                  ResponseError := Result.zero }
              let results := (mapLookup st.results uniqueId).getD dflt
              let action := cfg
              -- `existingResult, exist := fp.results[uniqueId]`: the entry was
              -- created above, so `exist` is always true and the
              -- `AddResponseError` branch guarded by `!exist` is dead code.
              let existingResult := results
              let action := match existingResult.getRequest with
                | (some req, true) => req.getAction
                | _ => action
              if action = "" then
                -- break: the response payload is discarded, nothing stored.
                st
              else
                let callResult := Message.callResult uniqueId action
                  (some (arr.getD 2 (JVal.other 0)))
                { st with results := mapInsert st.results uniqueId (results.addResponse callResult) }
            else if typeId = 4 then
              -- CALL_ERROR
              let st := if (mapLookup st.results uniqueId).isNone then
                  let entry : RequestResponseResult :=
                    { Request := Result.new, Response := result,
                      ResponseError := Result.zero }
                  { st with results := mapInsert st.results uniqueId entry }
                else st
              let dflt : RequestResponseResult :=
                { Request := Result.new, Response := Result.new,
                  ResponseError := Result.zero }
              let results := (mapLookup st.results uniqueId).getD dflt
              if arr.length < 4 then
                -- `AddResponseError` on the local copy, break without store.
                st
              else
                let details := if arr.length > 4 then
                    some (arr.getD 4 (JVal.other 0)) else none
                let elem2 := arr.getD 2 (JVal.other 0)
                let results := match elem2 with
                  | JVal.str _ => results
                  | _ => results.addResponseError ("Invalid element "
                      ++ elem2.render ++ " at 2, expected error code (string)")
                let rawErrorCode := match elem2 with
                  | JVal.str s => s
                  | _ => ""
                let errorDescription := match arr.getD 3 (JVal.other 0) with
                  | JVal.str v => v
                  | _ => ""
                let callError := Message.callError uniqueId rawErrorCode
                  errorDescription details
                { st with results := mapInsert st.results uniqueId (results.addResponse callError) }
            else
              let r := result.addError ("Unknown message type: " ++ toString typeId)
              { st with nonParsable := mapInsert st.nonParsable uniqueId r }

/-- One iteration of the loop in `ParserV2.Parse`: JSON unmarshal failure
(`none`) records a non-parsable entry, otherwise `parse` runs. -/
def parseV2Step (cfg : String) (st : ParserV2State) (index : Nat)
    (line : Option (List JVal)) : ParserV2State :=
  match line with
  | none =>
      let r := Result.new.addError "Message is not a valid OCPP message"
      { st with nonParsable := mapInsert st.nonParsable ("line " ++ toString index) r }
  | some arr => parseV2Line cfg st index arr

/-- The loop of `ParserV2.Parse`, carrying the 1-based line counter. -/
def parseV2Lines (cfg : String) (st : ParserV2State) (index : Nat) :
    List (Option (List JVal)) → ParserV2State
  | [] => st
  | line :: rest =>
      parseV2Lines cfg (parseV2Step cfg st index line) (index + 1) rest

/-- `ParserV2.Parse` on a fresh parser: returns the results map, the
non-parsable map and the (always nil) error. -/
def parserV2Parse (cfg : String) (data : List (Option (List JVal))) :
    ParserV2State × Option String :=
  if data.isEmpty then (ParserV2State.empty, none)
  else (parseV2Lines cfg ParserV2State.empty 1 data, none)

/-! ## Single-message `Parser` (`pkg/parser/parser.go`) -/

/-- The observable outcome of `Parser.ParseMessage`: either a Go runtime
panic, or a normal return of `(message, result, error)`. -/
inductive POutcome where
  | panicked (msg : String)
  | returned (message : Option Message) (result : Result) (error : Option String)
deriving DecidableEq, Repr

/-- `Parser.parse` + `Parser.ParseMessage` for one line.  A `none` input
models a `json.Unmarshal` failure.  Array accesses are modelled with
`List.get?`; an out-of-range access is a Go index-out-of-range panic. -/
def parserParseMessage (line : Option (List JVal)) : POutcome :=
  match line with
  | none =>
      POutcome.returned none (Result.new.addError "cannot parse message")
        (some "cannot parse message")
  | some arr =>
      let result := Result.new
      if arr.length < 3 then
        -- `result.AddError(...); return nil, nil`: no hard error is returned.
        let r := result.addError
          ("Expected at least 3 elements in the message, got " ++ toString arr.length)
        POutcome.returned none r none
      else
        -- `rawTypeId, ok := arr[0].(float64)`: on failure an error is recorded
        -- but execution continues with the zero value 0.
        let result := match arr.getD 0 (JVal.other 0) with
          | JVal.num _ => result
          | _ => result.addError "Expected first element to be a number (message type ID)"
        let typeId : Int := match arr.getD 0 (JVal.other 0) with
          | JVal.num n => n
          | _ => 0
        let result := match arr.getD 1 (JVal.other 0) with
          | JVal.str _ => result
          | _ => result.addError "Expected second element to be a string (unique ID)"
        let uniqueId := match arr.getD 1 (JVal.other 0) with
          | JVal.str s => s
          | _ => ""
        if typeId = 2 then
          if arr.length ≠ 4 then
            let msg := "Expected 4 elements in the message, got " ++ toString arr.length
            POutcome.returned none (result.addError msg) (some msg)
          else
            match arr.getD 2 (JVal.other 0) with
            | JVal.str action =>
                let call := Message.call uniqueId action (some (arr.getD 3 (JVal.other 0)))
                POutcome.returned (some call) result none
            | e =>
                let msg := "Expected second element to be a string (action ID)"
                POutcome.returned none (result.addError msg)
                  (some ("Expected second element to be a string (action ID), got "
                    ++ e.render))
        else if typeId = 3 then
          -- `Payload: arr[3]` with only `len(arr) >= 3` established: for a
          -- 3-element CALL_RESULT this access is out of range and panics.
          match arr.get? 3 with
          | none => POutcome.panicked "runtime error: index out of range [3] with length 3"
          | some payload =>
              let callResult := Message.callResult uniqueId "" (some payload)
              POutcome.returned (some callResult) result none
        else if typeId = 4 then
          if arr.length < 4 then
            let msg := "Invalid Call Error message. Expected array length >= 4, got "
              ++ toString arr.length
            POutcome.returned none (result.addError msg) (some msg)
          else
            let details := if arr.length > 4 then some (arr.getD 4 (JVal.other 0)) else none
            let elem2 := arr.getD 2 (JVal.other 0)
            let result := match elem2 with
              | JVal.str _ => result
              | _ => result.addError ("Invalid element " ++ elem2.render
                  ++ " at 2, expected error code (string)")
            let rawErrorCode := match elem2 with
              | JVal.str s => s
              | _ => ""
            let errorDescription := match arr.getD 3 (JVal.other 0) with
              | JVal.str v => v
              | _ => ""
            let callError := Message.callError uniqueId rawErrorCode errorDescription details
            POutcome.returned (some callError) result none
        else
          let msg := "Unknown message type: " ++ toString typeId
          POutcome.returned none (result.addError msg) (some msg)

/-! ## Schema registry (`pkg/schema_registry/options.go`, `registry.go`) -/

/-- OCPP protocol versions are strings ("1.5", "1.6", "2.0", "2.1"). -/
abbrev Version := String

/-- `ocpp.IsValidProtocolVersion`. -/
def isValidProtocolVersion (v : Version) : Bool :=
  v = "1.5" || v = "1.6" || v = "2.0" || v = "2.1"

/-- A compiled JSON schema.  The `jsonschema` compiler is an external
library; a compiled schema is modelled as an opaque handle (its identity
is all the registry code observes). -/
abbrev CompiledSchema := String

/-- `strings.HasSuffix`, stated structurally over the character list so
that it evaluates by kernel reduction. -/
def strHasSuffix (s suffix : String) : Bool :=
  List.isPrefixOf suffix.data.reverse s.data.reverse

/-- `schema_registry.Options`. -/
structure RegOptions where
  overwrite : Bool
deriving DecidableEq, Repr

/-- `schema_registry.WithOverwrite`. -/
def withOverwrite (b : Bool) : RegOptions → RegOptions :=
  fun o => { o with overwrite := b }

/-- The `InMemorySchemaRegistry` state: version → action → compiled schema. -/
structure RegistryState where
  schemasPerOcppVersion : List (String × List (String × CompiledSchema))
deriving DecidableEq, Repr

def RegistryState.empty : RegistryState := { schemasPerOcppVersion := [] }

/-- `InMemorySchemaRegistry.GetSchema`: never errors, `none` models
`found = false`. -/
def getSchema (reg : RegistryState) (ocppVersion : Version) (action : String) :
    Option CompiledSchema :=
  match mapLookup reg.schemasPerOcppVersion ocppVersion with
  | none => none
  | some schemas => mapLookup schemas action

/-- The kinds of lock acquired on the registry's `sync.RWMutex`. -/
inductive LockKind where
  | read
  | write
deriving DecidableEq, Repr

/-- The lock `RegisterSchema` acquires around its map mutation: the source
calls `sr.mu.RLock()` (a shared read lock) under the comment "Acquire
write lock to modify the schemasPerOcppVersion map". -/
def registerSchemaLockAcquired : LockKind := LockKind.read

/-- The lock `GetSchema` acquires: `sr.mu.RLock()`. -/
def getSchemaLockAcquired : LockKind := LockKind.read

/-- `InMemorySchemaRegistry.RegisterSchema`.  The external `jsonschema`
compiler is passed in explicitly as `compile` (the Go code uses the
package-level `compiler` instance); `none` models a compile error.
Returns the new registry state and the error (`none` = nil). -/
def registerSchema (compile : String → Option CompiledSchema)
    (reg : RegistryState) (ocppVersion : Version) (action : String)
    (rawSchema : String) (opts : List (RegOptions → RegOptions)) :
    RegistryState × Option String :=
  if ¬ isValidProtocolVersion ocppVersion then
    (reg, some ("invalid OCPP version: " ++ ocppVersion))
  else if ¬ (strHasSuffix action "Request" || strHasSuffix action "Response") then
    (reg, some ("action must end with 'Request' or 'Response': " ++ action))
  else
    match compile rawSchema with
    | none => (reg, some "failed to compile schema")
    | some schema =>
        let defaultOpts := opts.foldl (fun o f => f o) { overwrite := false }
        let reg := if (mapLookup reg.schemasPerOcppVersion ocppVersion).isNone
          then { schemasPerOcppVersion :=
                  mapInsert reg.schemasPerOcppVersion ocppVersion [] }
          else reg
        let bucket := (mapLookup reg.schemasPerOcppVersion ocppVersion).getD []
        if ¬ defaultOpts.overwrite ∧ (mapLookup bucket action).isSome then
          (reg, some ("schema for action " ++ action ++ " already exists for OCPP version "
            ++ ocppVersion))
        else
          ({ schemasPerOcppVersion := mapInsert reg.schemasPerOcppVersion
              ocppVersion (mapInsert bucket action schema) }, none)

/-! ## Validator (`pkg/validator/validator.go`, `pkg/validator/result.go`) -/

def payloadEmptyErr : String := "payload is empty"

def actionEmptyErr : String := "action is empty"

def uniqueIdEmptyErr : String := "unique id is empty"

/-- `validator.ValidationResult`. -/
structure ValidationResult where
  isValid : Bool
  errors : List String
deriving DecidableEq, Repr

/-- `validator.NewValidationResult()`. -/
def ValidationResult.new : ValidationResult := { isValid := true, errors := [] }

/-- The Go zero value of `validator.ValidationResult`. -/
def ValidationResult.zero : ValidationResult := { isValid := false, errors := [] }

def ValidationResult.addError (v : ValidationResult) (err : String) : ValidationResult :=
  { v with isValid := false, errors := v.errors ++ [err] }

def ValidationResult.IsValid (v : ValidationResult) : Bool := v.isValid

/-- The loop appending each schema-violation message
(`for _, evaluationError := range evaluationResult.Errors`). -/
def ValidationResult.appendViolations (v : ValidationResult)
    (violations : List String) : ValidationResult :=
  violations.foldl ValidationResult.addError v

/-- `Validator.validatePayload`.  `validate` models the external
`schema.Validate` call: the list of schema-violation messages for a
payload (empty = valid). -/
def validatePayload (validate : CompiledSchema → JVal → List String)
    (reg : RegistryState) (ocppVersion : Version) (payload : Option JVal)
    (action : String) (validationResults : ValidationResult) :
    ValidationResult × Option String :=
  match payload with
  | none => (validationResults.addError payloadEmptyErr, none)
  | some p =>
      match getSchema reg ocppVersion action with
      | none =>
          (validationResults, some ("no schema found for action " ++ action
            ++ " in OCPP version " ++ ocppVersion))
      | some schema =>
          (validationResults.appendViolations (validate schema p), none)

/-- `Validator.ValidateMessage` for the three message kinds present in
`pkg/ocpp/message.go`.  (The SEND / CALL_RESULT_ERROR arms of the Go
switch require message variants that do not exist in the message model
and are unreachable here.)  The error component models the returned Go
error (`none` = nil). -/
def validateMessage (validate : CompiledSchema → JVal → List String)
    (reg : RegistryState) (ocppVersion : Version) (message : Message) :
    ValidationResult × Option String :=
  let result := ValidationResult.new
  let result := if message.getUniqueId = "" then result.addError uniqueIdEmptyErr
    else result
  let payload := message.getPayload
  match message with
  | Message.call _ action _ =>
      if action = "" then (result.addError actionEmptyErr, none)
      else validatePayload validate reg ocppVersion payload (action ++ "Request") result
  | Message.callResult _ action _ =>
      -- Unlike the CALL case there is no `break` here: the empty-action
      -- error is recorded and the schema lookup still happens, with the
      -- bare key "Response".
      let result := if action = "" then result.addError actionEmptyErr else result
      validatePayload validate reg ocppVersion payload (action ++ "Response") result
  | Message.callError _ errorCode _ _ =>
      if ¬ isErrorCodeValid errorCode then
        (result.addError ("invalid error code: " ++ errorCode), none)
      else (result, none)

/-! ## Report aggregator (`pkg/report/result_aggregator.go`,
`pkg/report/statistics.go`) -/

/-- `report.Statistics` counters. -/
structure Statistics where
  ValidRequests : Nat
  ValidResponses : Nat
  InvalidRequests : Nat
  InvalidResponses : Nat
  UnparsableMessages : Nat
deriving DecidableEq, Repr

def Statistics.zero : Statistics :=
  { ValidRequests := 0, ValidResponses := 0, InvalidRequests := 0,
    InvalidResponses := 0, UnparsableMessages := 0 }

/-- Componentwise sum of two counter records. -/
def Statistics.add (a b : Statistics) : Statistics :=
  { ValidRequests := a.ValidRequests + b.ValidRequests,
    ValidResponses := a.ValidResponses + b.ValidResponses,
    InvalidRequests := a.InvalidRequests + b.InvalidRequests,
    InvalidResponses := a.InvalidResponses + b.InvalidResponses,
    UnparsableMessages := a.UnparsableMessages + b.UnparsableMessages }

/-- `report.Results`: the validation result and the parser result stored
per message id and per request/response key. -/
structure Results where
  ValidationResult : ValidationResult
  Result : Result
deriving DecidableEq, Repr

/-- The Go zero value of `report.Results` (what `a.results[id][key]`
yields before either half was added): both embedded results are zero
valued, in particular NOT valid. -/
def Results.zero : Results :=
  { ValidationResult := ValidationResult.zero, Result := Result.zero }

/-- `report.Report`: invalid messages (id → "request"/"response" → error
list) and non-parsable messages (line key → error list). -/
structure Report where
  InvalidMessages : List (String × List (String × List String))
  NonParsableMessages : List (String × List String)
deriving DecidableEq, Repr

/-- `report.Aggregator` state.  The cached report is represented by the
frozen `InvalidMessages` component (`reportInvalidMessages`): in the Go
code `a.report.NonParsableMessages` is the same map object as
`a.nonParsableMessages`, so the non-parsable component a caller observes
in any returned report is always the aggregator's current map. -/
structure AggState where
  results : List (String × List (String × Results))
  nonParsableMessages : List (String × List String)
  reportGenerated : Bool
  stats : Statistics
  reportInvalidMessages : List (String × List (String × List String))
deriving DecidableEq, Repr

/-- `report.NewAggregator`. -/
def AggState.new : AggState :=
  { results := [], nonParsableMessages := [], reportGenerated := false,
    stats := Statistics.zero, reportInvalidMessages := [] }

/-- `report.getKey`. -/
def getKey (isRequest : Bool) : String := if isRequest then "request" else "response"

/-- `Aggregator.AddValidationResults`. -/
def addValidationResults (a : AggState) (messageId : String) (isRequest : Bool)
    (validationResult : ValidationResult) : AggState :=
  if messageId = "" then a
  else
    let inner := (mapLookup a.results messageId).getD []
    let key := getKey isRequest
    let results := (mapLookup inner key).getD Results.zero
    let results := { results with ValidationResult := validationResult }
    { a with results := mapInsert a.results messageId (mapInsert inner key results) }

/-- `Aggregator.AddParserResult`. -/
def addParserResult (a : AggState) (messageId : String) (isRequest : Bool)
    (parserResult : Result) : AggState :=
  if messageId = "" then a
  else
    let inner := (mapLookup a.results messageId).getD []
    let key := getKey isRequest
    let results := (mapLookup inner key).getD Results.zero
    let results := { results with Result := parserResult }
    { a with results := mapInsert a.results messageId (mapInsert inner key results) }

/-- `Aggregator.AddNonParsableMessage`. -/
def addNonParsableMessage (a : AggState) (messageId : String)
    (parserResult : Result) : AggState :=
  if messageId = "" then a
  else
    { a with nonParsableMessages :=
        mapInsert a.nonParsableMessages messageId parserResult.errors }

/-- The statistics increment shared by `CreateReport` and
`GetStatistics` (the `switch` in the per-slot loop body). -/
def statsBump (s : Statistics) (key : String) (results : Results) : Statistics :=
  let isRequest := key = "request"
  let isValid := results.ValidationResult.IsValid && results.Result.IsValid
  if isRequest && isValid then { s with ValidRequests := s.ValidRequests + 1 }
  else if isRequest then { s with InvalidRequests := s.InvalidRequests + 1 }
  else if isValid then { s with ValidResponses := s.ValidResponses + 1 }
  else { s with InvalidResponses := s.InvalidResponses + 1 }

/-- The nested loop of `CreateReport` / `GetStatistics` folded over the
results map, accumulating onto the aggregator's current `stats` field. -/
def statsFold (s : Statistics) (results : List (String × List (String × Results))) :
    Statistics :=
  results.foldl (fun acc entry => entry.2.foldl (fun a e => statsBump a e.1 e.2) acc) s

/-- The `InvalidMessages` map built by `CreateReport`: per failing slot,
the validation errors followed by the parser errors. -/
def buildInvalidMessages (results : List (String × List (String × Results))) :
    List (String × List (String × List String)) :=
  results.foldl (fun report entry =>
    entry.2.foldl (fun rep e =>
      if ¬ e.2.ValidationResult.IsValid || ¬ e.2.Result.IsValid then
        let inner := (mapLookup rep entry.1).getD []
        mapInsert rep entry.1
          (mapInsert inner e.1 (e.2.ValidationResult.errors ++ e.2.Result.errors))
      else rep) report) []

/-- `Aggregator.CreateReport`: returns the updated aggregator and the
report the caller observes.  The returned report's `NonParsableMessages`
is the aggregator's live map (aliasing in the Go code), while
`InvalidMessages` is frozen on first generation. -/
def createReport (a : AggState) : AggState × Report :=
  if a.reportGenerated then
    (a, { InvalidMessages := a.reportInvalidMessages,
          NonParsableMessages := a.nonParsableMessages })
  else
    let invalid := buildInvalidMessages a.results
    let a' := { a with stats := statsFold a.stats a.results,
                       reportGenerated := true,
                       reportInvalidMessages := invalid }
    (a', { InvalidMessages := invalid, NonParsableMessages := a.nonParsableMessages })

/-- `Aggregator.GetStatistics`: if no report was generated, the counting
loop runs, accumulating onto the stored `stats` field (which this call
also updates); otherwise the stored statistics are returned. -/
def getStatistics (a : AggState) : AggState × Statistics :=
  if ¬ a.reportGenerated then
    let s := statsFold a.stats a.results
    ({ a with stats := s }, s)
  else (a, a.stats)

/-- `Aggregator.Reset`. -/
def aggReset (a : AggState) : AggState :=
  { results := [], nonParsableMessages := [], reportGenerated := false,
    stats := Statistics.zero, reportInvalidMessages := a.reportInvalidMessages }

/-! ## Validation service (`internal/validation/service.go`) -/

/-- `Service.filterValidMessages`: copy only the exchanges whose
`IsValid()` holds into a fresh map. -/
def filterValidMessages (parserResults : List (String × RequestResponseResult)) :
    List (String × RequestResponseResult) :=
  parserResults.foldl (fun validMessages e =>
    if ¬ e.2.IsValid then validMessages
    else mapInsert validMessages e.1 e.2) []

/-! ## Specification-side counting functions (used to state what the
statistics fold computes) -/

/-- Count of slots in the aggregator's results map matching a predicate
on (key, stored results). -/
def countSlots (p : String → Results → Bool) (results : List (String × List (String × Results))) : Nat :=
  (results.map (fun entry => (entry.2.filter (fun e => p e.1 e.2)).length)).sum

def isSlotValid (r : Results) : Bool := r.ValidationResult.IsValid && r.Result.IsValid

def validRequestCount (results : List (String × List (String × Results))) : Nat :=
  countSlots (fun k r => k = "request" && isSlotValid r) results

def invalidRequestCount (results : List (String × List (String × Results))) : Nat :=
  countSlots (fun k r => k = "request" && ¬ isSlotValid r) results

def validResponseCount (results : List (String × List (String × Results))) : Nat :=
  countSlots (fun k r => ¬ (k = "request") && isSlotValid r) results

def invalidResponseCount (results : List (String × List (String × Results))) : Nat :=
  countSlots (fun k r => ¬ (k = "request") && ¬ isSlotValid r) results

/-! ## Helper lemmas about the association-list maps -/

theorem mapLookup_mapInsert_self {α : Type} (m : List (String × α)) (k : String) (v : α) :
    mapLookup (mapInsert m k v) k = some v := by
  induction m with
  | nil => simp [mapInsert, mapLookup]
  | cons hd tl ih =>
      obtain ⟨k', v'⟩ := hd
      by_cases h : k' = k
      · simp [mapInsert, mapLookup, h]
      · simp [mapInsert, mapLookup, h, ih]

theorem mapLookup_mapInsert_ne {α : Type} (m : List (String × α)) {k' k : String}
    (v : α) (h : k' ≠ k) :
    mapLookup (mapInsert m k' v) k = mapLookup m k := by
  induction m with
  | nil => simp [mapInsert, mapLookup, h]
  | cons hd tl ih =>
      obtain ⟨k'', v''⟩ := hd
      by_cases h2 : k'' = k'
      · subst h2
        simp [mapInsert, mapLookup, h]
      · simp only [mapInsert, h2, if_false]
        by_cases h3 : k'' = k
        · simp [mapLookup, h3]
        · simp [mapLookup, h3, ih]

theorem mapLookup_mapInsert_isSome_mono {α : Type} (m : List (String × α))
    (k' k : String) (v : α) (h : (mapLookup m k).isSome = true) :
    (mapLookup (mapInsert m k' v) k).isSome = true := by
  by_cases hk : k' = k
  · subst hk
    simp [mapLookup_mapInsert_self]
  · rw [mapLookup_mapInsert_ne m v hk]
    exact h

/-! ## Claim C3 -/

/-- C3: evaluation of the decoder at a 3-element type-2 line
`[2,"1234","BootNotification"]`.  Contrary to the claim, the stored
exchange's Request slot is `NewResult()`: valid and with an empty error
list — the "Expected 4 elements" diagnostic was added to a local copy of
the map entry that is never stored back, so it is lost. -/
theorem c3_code_evaluation :
    parserV2Parse "" [some [JVal.num 2, JVal.str "1234", JVal.str "BootNotification"]]
      = (⟨[("1234", ⟨Result.new, Result.new, Result.zero⟩)], []⟩, none) := by
  decide

/-! ## Claim C8 -/

/-- C8: evaluation of `Parser.ParseMessage` at the well-formed 3-element
type-3 line `[3,"1234",{...}]` (the shape the code's own "Valid Response"
test exercises): the unguarded `arr[3]` access is out of range, a Go
runtime panic, contradicting the no-panic claim. -/
theorem c8_code_evaluation :
    parserParseMessage (some [JVal.num 3, JVal.str "1234", JVal.other 0])
      = POutcome.panicked "runtime error: index out of range [3] with length 3" := by
  decide

/-! ## Claim C9 -/

/-- C9: the lock discipline of `RegisterSchema` as written in the source:
the registration body acquires the shared read lock (`mu.RLock()`), not
the write-exclusive lock, although its own comment says "Acquire write
lock to modify the schemasPerOcppVersion map".  Registration is therefore
not mutually exclusive with other registrations or with reads. -/
theorem c9_code_evaluation :
    registerSchemaLockAcquired = LockKind.read ∧
    registerSchemaLockAcquired ≠ LockKind.write ∧
    getSchemaLockAcquired = LockKind.read := by
  refine ⟨rfl, ?_, rfl⟩
  decide

/-! ## Claim C1 -/

/-- C1 counterexample: for the two-line input whose lines are both the
well-formed type-3 message `[3,"id",{...}]`, the second line leaves the
parser state completely unchanged — it neither contributes to the results
map (the state equals the state produced by the first line alone) nor is
recorded in the non-parsable map (which stays empty).  The second line is
silently dropped, refuting the claim's "every input line is accounted for
in exactly one of the two outputs". -/
theorem c1_counterexample :
    (parserV2Parse "" [some [JVal.num 3, JVal.str "id", JVal.other 0],
        some [JVal.num 3, JVal.str "id", JVal.other 0]]).1
      = (parserV2Parse "" [some [JVal.num 3, JVal.str "id", JVal.other 0]]).1 ∧
    (parserV2Parse "" [some [JVal.num 3, JVal.str "id", JVal.other 0],
        some [JVal.num 3, JVal.str "id", JVal.other 0]]).1.nonParsable = [] ∧
    (parserV2Parse "" [some [JVal.num 3, JVal.str "id", JVal.other 0],
        some [JVal.num 3, JVal.str "id", JVal.other 0]]).1.results
      = [("id", ⟨Result.new, Result.new, Result.zero⟩)] := by
  refine ⟨?_, ?_, ?_⟩ <;> decide

/-! ## Claim C2 -/

/-- C2 counterexample: for the request `[2,"1234","Boot",{...}]` and the
response `[3,"1234",{...}]` (no global response-type configured), parsing
request-then-response stores the response message (with the inherited
action) in the Response slot, while parsing response-then-request leaves
the Response slot empty — the response payload is discarded.  The two
orders yield different final exchanges, refuting order independence. -/
theorem c2_counterexample :
    (parserV2Parse "" [some [JVal.num 2, JVal.str "1234", JVal.str "Boot", JVal.other 0],
        some [JVal.num 3, JVal.str "1234", JVal.other 1]]).1.results
      = [("1234", ⟨⟨some (Message.call "1234" "Boot" (some (JVal.other 0))), true, []⟩,
           ⟨some (Message.callResult "1234" "Boot" (some (JVal.other 1))), true, []⟩,
           Result.zero⟩)] ∧
    (parserV2Parse "" [some [JVal.num 3, JVal.str "1234", JVal.other 1],
        some [JVal.num 2, JVal.str "1234", JVal.str "Boot", JVal.other 0]]).1.results
      = [("1234", ⟨⟨some (Message.call "1234" "Boot" (some (JVal.other 0))), true, []⟩,
           Result.new, Result.zero⟩)] ∧
    (parserV2Parse "" [some [JVal.num 2, JVal.str "1234", JVal.str "Boot", JVal.other 0],
        some [JVal.num 3, JVal.str "1234", JVal.other 1]]).1.results
      ≠ (parserV2Parse "" [some [JVal.num 3, JVal.str "1234", JVal.other 1],
          some [JVal.num 2, JVal.str "1234", JVal.str "Boot", JVal.other 0]]).1.results := by
  refine ⟨?_, ?_, ?_⟩ <;> decide

/-! ## Claim C4 -/

/-- C4 counterexample: on a fresh aggregator, generate a report, then add
a non-parsable message and generate again: because the cached report's
`NonParsableMessages` is the aggregator's live map, the second
`CreateReport` returns a report that differs from the first one ("line 1"
appeared), refuting "calling ... AddNonParsableMessage after the first
CreateReport does not change the Report value returned by subsequent
CreateReport calls (including its NonParsableMessages map)". -/
theorem c4_counterexample :
    (createReport (addNonParsableMessage (createReport AggState.new).1 "line 1"
        (Result.new.addError "err"))).2
      ≠ (createReport AggState.new).2 ∧
    (createReport (addNonParsableMessage (createReport AggState.new).1 "line 1"
        (Result.new.addError "err"))).2.NonParsableMessages
      = [("line 1", ["err"])] := by
  refine ⟨?_, ?_⟩ <;> decide

/-! ## Claim C5 -/

/-- C5 counterexample: for an aggregator holding one request entry whose
parse and validation results are both valid, the first `GetStatistics`
call returns ValidRequests = 1 but the second call returns
ValidRequests = 2 — the counting loop accumulates onto the stored
counters without resetting them, refuting "calling GetStatistics
repeatedly without intervening Add* calls returns the same Statistics
value each time". -/
theorem c5_counterexample :
    (getStatistics (addValidationResults
        (addParserResult AggState.new "m1" true Result.new) "m1" true
        ValidationResult.new)).2.ValidRequests = 1 ∧
    (getStatistics (getStatistics (addValidationResults
        (addParserResult AggState.new "m1" true Result.new) "m1" true
        ValidationResult.new)).1).2.ValidRequests = 2 ∧
    (getStatistics (getStatistics (addValidationResults
        (addParserResult AggState.new "m1" true Result.new) "m1" true
        ValidationResult.new)).1).2
      ≠ (getStatistics (addValidationResults
          (addParserResult AggState.new "m1" true Result.new) "m1" true
          ValidationResult.new)).2 := by
  refine ⟨?_, ?_, ?_⟩ <;> decide

/-! ## Claim C7 -/

/-- C7 counterexample: for the type-3 message with empty action, non-nil
payload and an empty registry, `ValidateMessage` does perform a schema
lookup under the bare key "Response" and returns the hard error
"no schema found for action Response in OCPP version 1.6", refuting
"returns a nil error without performing a schema lookup". -/
theorem c7_counterexample :
    validateMessage (fun _ _ => []) RegistryState.empty "1.6"
        (Message.callResult "u1" "" (some (JVal.other 0)))
      = (⟨false, [actionEmptyErr]⟩,
         some "no schema found for action Response in OCPP version 1.6") := by
  decide

/-! ## Helper lemmas for claim C1 -/

set_option maxHeartbeats 2000000 in
/-- Every branch of `parseV2Line` either leaves the non-parsable map
unchanged or performs a single insert into it. -/
theorem parseV2Line_nonParsable_shape (cfg : String) (st : ParserV2State) (index : Nat)
    (arr : List JVal) :
    (parseV2Line cfg st index arr).nonParsable = st.nonParsable ∨
    ∃ kk vv, (parseV2Line cfg st index arr).nonParsable = mapInsert st.nonParsable kk vv := by
  unfold parseV2Line
  dsimp only
  repeat' split
  all_goals (try dsimp only)
  all_goals first
    | exact Or.inl rfl
    | exact Or.inr ⟨_, _, rfl⟩

/-- A key present in the non-parsable map stays present across one line. -/
theorem parseV2Step_nonParsable_mono (cfg : String) (st : ParserV2State) (index : Nat)
    (line : Option (List JVal)) (k : String)
    (h : (mapLookup st.nonParsable k).isSome = true) :
    (mapLookup (parseV2Step cfg st index line).nonParsable k).isSome = true := by
  cases line with
  | none =>
      simpa [parseV2Step] using mapLookup_mapInsert_isSome_mono _ _ _ _ h
  | some arr =>
      rcases parseV2Line_nonParsable_shape cfg st index arr with hs | ⟨kk, vv, hs⟩
      · simpa [parseV2Step, hs] using h
      · simp only [parseV2Step, hs]
        exact mapLookup_mapInsert_isSome_mono _ _ _ _ h

/-- A key present in the non-parsable map stays present for the rest of
the scan. -/
theorem parseV2Lines_nonParsable_mono (cfg : String) (data : List (Option (List JVal))) :
    ∀ (st : ParserV2State) (idx : Nat) (k : String),
      (mapLookup st.nonParsable k).isSome = true →
      (mapLookup (parseV2Lines cfg st idx data).nonParsable k).isSome = true := by
  induction data with
  | nil => intro st idx k h; simpa [parseV2Lines] using h
  | cons l t ih =>
      intro st idx k h
      exact ih (parseV2Step cfg st idx l) (idx + 1) k
        (parseV2Step_nonParsable_mono cfg st idx l k h)

/-- A JSON-invalid line at position `i` (0-based, with the scan starting
at line number `idx`) leaves a diagnostic under key "line (idx+i)" that
survives to the end of the scan. -/
theorem parseV2Lines_badline (cfg : String) (data : List (Option (List JVal))) :
    ∀ (st : ParserV2State) (idx : Nat) (i : Nat) (hi : i < data.length),
      data.get ⟨i, hi⟩ = none →
      (mapLookup (parseV2Lines cfg st idx data).nonParsable
        ("line " ++ toString (idx + i))).isSome = true := by
  induction data with
  | nil =>
      intro st idx i hi
      exact absurd hi (by simp)
  | cons l t ih =>
      intro st idx i hi hget
      cases i with
      | zero =>
          have hl : l = none := by simpa using hget
          subst hl
          show (mapLookup (parseV2Lines cfg (parseV2Step cfg st idx none) (idx + 1) t).nonParsable
            ("line " ++ toString (idx + 0))).isSome = true
          apply parseV2Lines_nonParsable_mono
          simp [parseV2Step, Nat.add_zero, mapLookup_mapInsert_self]
      | succ j =>
          have hj : j < t.length := by simpa using hi
          have hget' : t.get ⟨j, hj⟩ = none := by simpa using hget
          have harith : idx + (j + 1) = (idx + 1) + j := by omega
          rw [harith]
          exact ih (parseV2Step cfg st idx l) (idx + 1) j hj hget'

/-- C1 (amended): for every non-empty input, `Parse` returns a nil error,
and every JSON-invalid line is recorded in the non-parsable map under its
"line n" key.  (The original claim's stronger "every line is accounted
for in exactly one of the two outputs" fails: a type-3 line whose
correlation id already has an entry with no stored request, and with no
configured response-type, leaves both outputs unchanged — see the
counterexample.) -/
theorem c1_amended (cfg : String) (data : List (Option (List JVal)))
    (hne : data ≠ []) :
    (parserV2Parse cfg data).2 = none ∧
    ∀ i (hi : i < data.length), data.get ⟨i, hi⟩ = none →
      (mapLookup (parserV2Parse cfg data).1.nonParsable
        ("line " ++ toString (i + 1))).isSome = true := by
  have hni : data.isEmpty = false := by
    cases data with
    | nil => exact absurd rfl hne
    | cons l t => rfl
  constructor
  · unfold parserV2Parse
    rw [hni]
    rfl
  · intro i hi hget
    unfold parserV2Parse
    rw [hni]
    simp only [Bool.false_eq_true, if_false]
    have := parseV2Lines_badline cfg data ParserV2State.empty 1 i hi hget
    rwa [Nat.add_comm 1 i] at this

/-- C1 witness: the amended theorem applied to the single-line input
consisting of one JSON-invalid line. -/
theorem c1_amended_witness :
    (parserV2Parse "" [none]).2 = none ∧
    (mapLookup (parserV2Parse "" [none]).1.nonParsable "line 1").isSome = true := by
  have h := c1_amended "" [none] (by decide)
  exact ⟨h.1, h.2 0 (by decide) rfl⟩
/-! ## Claim C2 (amended theorem) -/

set_option maxHeartbeats 2000000 in
/-- C2 (amended): for a well-formed type-2 request and type-3 response
sharing a non-empty correlation id (and no configured global
response-type), the two arrival orders do NOT agree: request-first stores
the response message with the inherited action in the Response slot,
while response-first leaves the Response slot `NewResult()` — the
response's payload is silently discarded. -/
theorem c2_amended (id action : String) (p p2 : JVal)
    (hid : id ≠ "") (ha : action ≠ "") :
    (parserV2Parse "" [some [JVal.num 2, JVal.str id, JVal.str action, p],
        some [JVal.num 3, JVal.str id, p2]]).1.results
      = [(id, ⟨⟨some (Message.call id action (some p)), true, []⟩,
           ⟨some (Message.callResult id action (some p2)), true, []⟩, Result.zero⟩)] ∧
    (parserV2Parse "" [some [JVal.num 3, JVal.str id, p2],
        some [JVal.num 2, JVal.str id, JVal.str action, p]]).1.results
      = [(id, ⟨⟨some (Message.call id action (some p)), true, []⟩,
           Result.new, Result.zero⟩)] := by
  constructor
  · simp [parserV2Parse, parseV2Lines, parseV2Step, parseV2Line, mapInsert, mapLookup,
      hid, ha, Result.new, Result.zero, Result.setMessage,
      RequestResponseResult.addRequest, RequestResponseResult.addResponse,
      RequestResponseResult.getRequest, Message.getAction]
  · simp [parserV2Parse, parseV2Lines, parseV2Step, parseV2Line, mapInsert, mapLookup,
      hid, ha, Result.new, Result.zero, Result.setMessage,
      RequestResponseResult.addRequest, RequestResponseResult.addResponse,
      RequestResponseResult.getRequest, Message.getAction]

/-- C2 witness: the amended theorem at a concrete request/response pair. -/
theorem c2_amended_witness :
    (parserV2Parse "" [some [JVal.num 2, JVal.str "1234", JVal.str "Boot", JVal.other 0],
        some [JVal.num 3, JVal.str "1234", JVal.other 1]]).1.results
      = [("1234", ⟨⟨some (Message.call "1234" "Boot" (some (JVal.other 0))), true, []⟩,
           ⟨some (Message.callResult "1234" "Boot" (some (JVal.other 1))), true, []⟩,
           Result.zero⟩)] ∧
    (parserV2Parse "" [some [JVal.num 3, JVal.str "1234", JVal.other 1],
        some [JVal.num 2, JVal.str "1234", JVal.str "Boot", JVal.other 0]]).1.results
      = [("1234", ⟨⟨some (Message.call "1234" "Boot" (some (JVal.other 0))), true, []⟩,
           Result.new, Result.zero⟩)] :=
  c2_amended "1234" "Boot" (JVal.other 0) (JVal.other 1) (by decide) (by decide)

/-! ## Claim C4 (amended theorem) -/

/-- C4 (amended): `CreateReport` is idempotent (a second call with no
intervening mutation returns the same Report and leaves the state
unchanged), and `AddParserResult` / `AddValidationResults` after the
first `CreateReport` do not change the report returned by subsequent
calls.  (`AddNonParsableMessage` after the first `CreateReport` DOES leak
into subsequent reports, because the cached report aliases the live
non-parsable map — see the counterexample.) -/
theorem c4_amended (a : AggState) :
    (createReport (createReport a).1).2 = (createReport a).2 ∧
    (createReport (createReport a).1).1 = (createReport a).1 ∧
    (∀ id b pr, (createReport (addParserResult (createReport a).1 id b pr)).2
        = (createReport a).2) ∧
    (∀ id b vr, (createReport (addValidationResults (createReport a).1 id b vr)).2
        = (createReport a).2) := by
  refine ⟨?_, ?_, ?_, ?_⟩
  · by_cases h : a.reportGenerated <;> simp [createReport, h]
  · by_cases h : a.reportGenerated <;> simp [createReport, h]
  · intro id b pr
    by_cases h : a.reportGenerated <;> by_cases hid : id = "" <;>
      simp [createReport, addParserResult, h, hid]
  · intro id b vr
    by_cases h : a.reportGenerated <;> by_cases hid : id = "" <;>
      simp [createReport, addValidationResults, h, hid]

/-! ## Helper lemmas for claim C5 -/

theorem Statistics.add_zero (s : Statistics) : s.add Statistics.zero = s := by
  cases s
  simp [Statistics.add, Statistics.zero]

theorem Statistics.add_assoc (a b c : Statistics) :
    (a.add b).add c = a.add (b.add c) := by
  cases a; cases b; cases c
  simp [Statistics.add, Nat.add_assoc]

theorem statsBump_eq_add (s : Statistics) (k : String) (r : Results) :
    statsBump s k r = s.add (statsBump Statistics.zero k r) := by
  cases s
  unfold statsBump Statistics.add Statistics.zero
  dsimp only
  split_ifs <;> simp

theorem innerFold_add (l : List (String × Results)) :
    ∀ (s : Statistics),
      l.foldl (fun a e => statsBump a e.1 e.2) s
        = s.add (l.foldl (fun a e => statsBump a e.1 e.2) Statistics.zero) := by
  induction l with
  | nil => intro s; simp [Statistics.add_zero]
  | cons e t ih =>
      intro s
      calc (e :: t).foldl (fun a e => statsBump a e.1 e.2) s
          = t.foldl (fun a e => statsBump a e.1 e.2) (statsBump s e.1 e.2) := by
            simp
        _ = (statsBump s e.1 e.2).add
              (t.foldl (fun a e => statsBump a e.1 e.2) Statistics.zero) := ih _
        _ = (s.add (statsBump Statistics.zero e.1 e.2)).add
              (t.foldl (fun a e => statsBump a e.1 e.2) Statistics.zero) := by
            rw [← statsBump_eq_add]
        _ = s.add ((statsBump Statistics.zero e.1 e.2).add
              (t.foldl (fun a e => statsBump a e.1 e.2) Statistics.zero)) :=
            Statistics.add_assoc _ _ _
        _ = s.add ((e :: t).foldl (fun a e => statsBump a e.1 e.2) Statistics.zero) := by
            rw [List.foldl_cons, ih (statsBump Statistics.zero e.1 e.2)]

theorem statsFold_add (results : List (String × List (String × Results))) :
    ∀ (s : Statistics),
      statsFold s results = s.add (statsFold Statistics.zero results) := by
  induction results with
  | nil => intro s; simp [statsFold, Statistics.add_zero]
  | cons e t ih =>
      intro s
      have ihs := ih (e.2.foldl (fun a x => statsBump a x.1 x.2) s)
      have ihz := ih (e.2.foldl (fun a x => statsBump a x.1 x.2) Statistics.zero)
      simp only [statsFold, List.foldl_cons] at ihs ihz ⊢
      rw [ihs, ihz, innerFold_add e.2 s, Statistics.add_assoc]

theorem innerFold_zero_spec (l : List (String × Results)) :
    l.foldl (fun a e => statsBump a e.1 e.2) Statistics.zero =
      ⟨(l.filter (fun e => e.1 = "request" && isSlotValid e.2)).length,
       (l.filter (fun e => ¬ (e.1 = "request") && isSlotValid e.2)).length,
       (l.filter (fun e => e.1 = "request" && ¬ isSlotValid e.2)).length,
       (l.filter (fun e => ¬ (e.1 = "request") && ¬ isSlotValid e.2)).length, 0⟩ := by
  induction l with
  | nil => simp [Statistics.zero]
  | cons e t ih =>
      rw [List.foldl_cons, innerFold_add, ih]
      by_cases hk : e.1 = "request" <;>
        by_cases hval : e.2.ValidationResult.IsValid = true <;>
        by_cases hres : e.2.Result.IsValid = true <;>
        simp_all [statsBump, Statistics.add, Statistics.zero, isSlotValid,
          List.filter_cons] <;> omega

/-- Starting from zero counters, the statistics fold computes exactly the
per-slot counts (request/response × valid/invalid). -/
theorem statsFold_zero_spec (results : List (String × List (String × Results))) :
    statsFold Statistics.zero results =
      ⟨validRequestCount results, validResponseCount results,
       invalidRequestCount results, invalidResponseCount results, 0⟩ := by
  induction results with
  | nil =>
      simp [statsFold, validRequestCount, validResponseCount, invalidRequestCount,
        invalidResponseCount, countSlots, Statistics.zero]
  | cons e t ih =>
      have h1 : statsFold Statistics.zero (e :: t)
          = (e.2.foldl (fun a x => statsBump a x.1 x.2) Statistics.zero).add
            (statsFold Statistics.zero t) := by
        have h := statsFold_add t (e.2.foldl (fun a x => statsBump a x.1 x.2) Statistics.zero)
        simp only [statsFold, List.foldl_cons] at h ⊢
        exact h
      rw [h1, innerFold_zero_spec, ih]
      simp [Statistics.add, validRequestCount, validResponseCount,
        invalidRequestCount, invalidResponseCount, countSlots]

/-- C5 (amended): on an aggregator with no generated report and zero
stored counters, the FIRST `GetStatistics` call returns exactly the fold
over the accumulated results (ValidRequests = number of request entries
whose parse Result and ValidationResult are both valid, and likewise for
the other three counters); but the call is not repeatable: it accumulates
into the stored counters, so an immediate second call returns the
componentwise double of the first. -/
theorem c5_amended (a : AggState) (h1 : a.reportGenerated = false)
    (h2 : a.stats = Statistics.zero) :
    (getStatistics a).2.ValidRequests = validRequestCount a.results ∧
    (getStatistics a).2.ValidResponses = validResponseCount a.results ∧
    (getStatistics a).2.InvalidRequests = invalidRequestCount a.results ∧
    (getStatistics a).2.InvalidResponses = invalidResponseCount a.results ∧
    (getStatistics (getStatistics a).1).2
      = ((getStatistics a).2).add ((getStatistics a).2) := by
  have hsnd : (getStatistics a).2 = statsFold Statistics.zero a.results := by
    simp [getStatistics, h1, h2]
  have hfst : (getStatistics a).1 = { a with stats := statsFold Statistics.zero a.results } := by
    simp [getStatistics, h1, h2]
  refine ⟨?_, ?_, ?_, ?_, ?_⟩
  · rw [hsnd, statsFold_zero_spec]
  · rw [hsnd, statsFold_zero_spec]
  · rw [hsnd, statsFold_zero_spec]
  · rw [hsnd, statsFold_zero_spec]
  · rw [hfst, hsnd]
    simp only [getStatistics, h1]
    simp
    exact statsFold_add a.results (statsFold Statistics.zero a.results)

/-- C5 witness: the amended theorem applied to an aggregator holding one
valid request entry. -/
theorem c5_amended_witness :
    (getStatistics (addValidationResults (addParserResult AggState.new "m1" true
        Result.new) "m1" true ValidationResult.new)).2.ValidRequests
      = validRequestCount (addValidationResults (addParserResult AggState.new "m1" true
          Result.new) "m1" true ValidationResult.new).results ∧
    (getStatistics (getStatistics (addValidationResults (addParserResult AggState.new
        "m1" true Result.new) "m1" true ValidationResult.new)).1).2
      = ((getStatistics (addValidationResults (addParserResult AggState.new "m1" true
          Result.new) "m1" true ValidationResult.new)).2).add
        ((getStatistics (addValidationResults (addParserResult AggState.new "m1" true
          Result.new) "m1" true ValidationResult.new)).2) := by
  have h := c5_amended (addValidationResults (addParserResult AggState.new "m1" true
    Result.new) "m1" true ValidationResult.new) (by decide) (by decide)
  exact ⟨h.1, h.2.2.2.2⟩
/-! ## Claim C6 -/

/-- C6: re-registering an already-registered (version, action) pair
without the overwrite option fails with the already-exists error and
leaves the stored schema unchanged; with `WithOverwrite(true)` it
succeeds and `GetSchema` returns the newly compiled schema. -/
theorem c6_register_overwrite (compile : String → Option CompiledSchema)
    (reg : RegistryState) (v : Version) (action raw2 : String)
    (s1 s2 : CompiledSchema)
    (hv : isValidProtocolVersion v = true)
    (hsuf : (strHasSuffix action "Request" || strHasSuffix action "Response") = true)
    (hreg : getSchema reg v action = some s1)
    (hc : compile raw2 = some s2) :
    ((registerSchema compile reg v action raw2 []).2
        = some ("schema for action " ++ action ++ " already exists for OCPP version " ++ v) ∧
     (registerSchema compile reg v action raw2 []).1 = reg ∧
     getSchema (registerSchema compile reg v action raw2 []).1 v action = some s1) ∧
    ((registerSchema compile reg v action raw2 [withOverwrite true]).2 = none ∧
     getSchema (registerSchema compile reg v action raw2 [withOverwrite true]).1 v action
        = some s2) := by
  obtain ⟨bucket, hb, hba⟩ : ∃ bucket,
      mapLookup reg.schemasPerOcppVersion v = some bucket ∧
      mapLookup bucket action = some s1 := by
    unfold getSchema at hreg
    cases hmatch : mapLookup reg.schemasPerOcppVersion v with
    | none => rw [hmatch] at hreg; exact absurd hreg (by simp)
    | some bucket => rw [hmatch] at hreg; exact ⟨bucket, rfl, hreg⟩
  refine ⟨⟨?_, ?_, ?_⟩, ⟨?_, ?_⟩⟩ <;>
    simp [registerSchema, hv, hsuf, hc, hb, hba, withOverwrite, getSchema,
      mapLookup_mapInsert_self]

/-- C6 witness: the theorem applied to a registry holding one schema for
(1.6, BootNotificationRequest) and a compiler that succeeds. -/
theorem c6_register_overwrite_witness :
    ((registerSchema (fun raw => some ("compiled " ++ raw))
        ⟨[("1.6", [("BootNotificationRequest", "compiled s1")])]⟩
        "1.6" "BootNotificationRequest" "s2" []).2
      = some "schema for action BootNotificationRequest already exists for OCPP version 1.6" ∧
     (registerSchema (fun raw => some ("compiled " ++ raw))
        ⟨[("1.6", [("BootNotificationRequest", "compiled s1")])]⟩
        "1.6" "BootNotificationRequest" "s2" []).1
      = ⟨[("1.6", [("BootNotificationRequest", "compiled s1")])]⟩ ∧
     getSchema (registerSchema (fun raw => some ("compiled " ++ raw))
        ⟨[("1.6", [("BootNotificationRequest", "compiled s1")])]⟩
        "1.6" "BootNotificationRequest" "s2" []).1 "1.6" "BootNotificationRequest"
      = some "compiled s1") ∧
    ((registerSchema (fun raw => some ("compiled " ++ raw))
        ⟨[("1.6", [("BootNotificationRequest", "compiled s1")])]⟩
        "1.6" "BootNotificationRequest" "s2" [withOverwrite true]).2 = none ∧
     getSchema (registerSchema (fun raw => some ("compiled " ++ raw))
        ⟨[("1.6", [("BootNotificationRequest", "compiled s1")])]⟩
        "1.6" "BootNotificationRequest" "s2" [withOverwrite true]).1
        "1.6" "BootNotificationRequest"
      = some "compiled s2") := by
  have hs : ("schema for action " ++ "BootNotificationRequest"
      ++ " already exists for OCPP version " ++ "1.6")
      = "schema for action BootNotificationRequest already exists for OCPP version 1.6" := by
    decide
  have h := c6_register_overwrite (fun raw => some ("compiled " ++ raw))
    ⟨[("1.6", [("BootNotificationRequest", "compiled s1")])]⟩
    "1.6" "BootNotificationRequest" "s2" "compiled s1" "compiled s2"
    (by decide) (by decide) (by decide) rfl
  rw [hs] at h
  exact h

/-! ## Claim C7 (amended theorem) -/

/-- C7 (amended): a type-3 (CallResult) message with empty action records
`actionEmptyErr` but — unlike an empty-action request — does NOT skip the
schema lookup: if the payload is nil, `payloadEmptyErr` is recorded and a
nil error returned, but if the payload is non-nil and no schema is
registered under the bare key "Response", ValidateMessage returns the
hard "no schema found" error. -/
theorem c7_amended (validate : CompiledSchema → JVal → List String)
    (reg : RegistryState) (v : Version) (uid : String) (q : JVal)
    (huid : uid ≠ "") (hns : getSchema reg v "Response" = none) :
    validateMessage validate reg v (Message.callResult uid "" none)
      = (⟨false, [actionEmptyErr, payloadEmptyErr]⟩, none) ∧
    validateMessage validate reg v (Message.callResult uid "" (some q))
      = (⟨false, [actionEmptyErr]⟩,
         some ("no schema found for action Response in OCPP version " ++ v)) := by
  have happ : ("" ++ "Response" : String) = "Response" := rfl
  constructor <;>
    simp [validateMessage, validatePayload, Message.getUniqueId, Message.getPayload,
      huid, happ, hns, ValidationResult.new, ValidationResult.addError,
      actionEmptyErr, payloadEmptyErr]

/-- C7 witness: the amended theorem at a concrete message and the empty
registry. -/
theorem c7_amended_witness :
    validateMessage (fun _ _ => []) RegistryState.empty "1.6"
        (Message.callResult "u1" "" none)
      = (⟨false, [actionEmptyErr, payloadEmptyErr]⟩, none) ∧
    validateMessage (fun _ _ => []) RegistryState.empty "1.6"
        (Message.callResult "u1" "" (some (JVal.other 0)))
      = (⟨false, [actionEmptyErr]⟩,
         some ("no schema found for action Response in OCPP version " ++ "1.6")) :=
  c7_amended (fun _ _ => []) RegistryState.empty "1.6" "u1" (JVal.other 0)
    (by decide) rfl

/-! ## Claim C10 -/

/-- Folding the filter over entries whose keys all differ from `k` does
not change what `k` maps to. -/
theorem filterFold_lookup_notin (t : List (String × RequestResponseResult)) :
    ∀ (acc : List (String × RequestResponseResult)) (k : String),
      k ∉ t.map Prod.fst →
      mapLookup (t.foldl (fun vm e => if ¬ e.2.IsValid then vm else mapInsert vm e.1 e.2) acc) k
        = mapLookup acc k := by
  induction t with
  | nil => intro acc k _; rfl
  | cons e t ih =>
      intro acc k hk
      have hk1 : e.1 ≠ k := by
        intro h
        exact hk (by simp [h])
      have hk2 : k ∉ t.map Prod.fst := by
        intro h
        exact hk (by simp [h])
      rw [List.foldl_cons]
      by_cases hv : e.2.IsValid = true
      · rw [if_neg (by simp [hv])]
        rw [ih _ _ hk2]
        exact mapLookup_mapInsert_ne acc e.2 hk1
      · rw [if_pos (by simp [hv])]
        exact ih _ _ hk2

/-- If the (nodup-keyed) results map sends `k` to a valid exchange, the
filter fold keeps that binding, starting from any accumulator in which
`k` is absent. -/
theorem filterFold_lookup_keep (m : List (String × RequestResponseResult)) :
    ∀ (acc : List (String × RequestResponseResult)) (k : String)
      (r : RequestResponseResult),
      (m.map Prod.fst).Nodup → mapLookup acc k = none → mapLookup m k = some r →
      r.IsValid = true →
      mapLookup (m.foldl (fun vm e => if ¬ e.2.IsValid then vm else mapInsert vm e.1 e.2) acc) k
        = some r := by
  induction m with
  | nil =>
      intro acc k r _ _ hlk
      exact absurd hlk (by simp [mapLookup])
  | cons e t ih =>
      intro acc k r hnd hacc hlk hv
      obtain ⟨hnotin, hndt⟩ : e.1 ∉ t.map Prod.fst ∧ (t.map Prod.fst).Nodup := by
        simpa [List.nodup_cons] using hnd
      rw [List.foldl_cons]
      by_cases hek : e.1 = k
      · subst hek
        have her : e.2 = r := by simpa [mapLookup] using hlk
        rw [if_neg (by simp [her, hv])]
        rw [filterFold_lookup_notin t _ _ hnotin]
        rw [her]
        exact mapLookup_mapInsert_self _ _ _
      · have hlk2 : mapLookup t k = some r := by
          simpa [mapLookup, hek] using hlk
        by_cases hv2 : e.2.IsValid = true
        · rw [if_neg (by simp [hv2])]
          apply ih _ _ _ hndt _ hlk2 hv
          rw [mapLookup_mapInsert_ne acc e.2 hek]
          exact hacc
        · rw [if_pos (by simp [hv2])]
          exact ih _ _ _ hndt hacc hlk2 hv

/-- C10: `RequestResponseResult.IsValid` is exactly the conjunction of
the Request and Response slot validities; errors added to the
ResponseError slot (`AddResponseErrorError`) never change it; and an
exchange that is valid in this sense is kept (not filtered out) by
`filterValidMessages` before validation. -/
theorem c10_responseError_not_in_validity (r : RequestResponseResult) (e : String)
    (m : List (String × RequestResponseResult)) (k : String) :
    r.IsValid = (r.Request.isValid && r.Response.isValid) ∧
    (r.addResponseErrorError e).IsValid = r.IsValid ∧
    ((m.map Prod.fst).Nodup → mapLookup m k = some r → r.IsValid = true →
      mapLookup (filterValidMessages m) k = some r) := by
  refine ⟨rfl, rfl, ?_⟩
  intro hnd hlk hv
  exact filterFold_lookup_keep m [] k r hnd rfl hlk hv

/-- C10 witness: the theorem applied to an exchange whose only errors sit
on its ResponseError slot, inside a one-entry results map. -/
theorem c10_witness :
    ((⟨Result.new, Result.new, Result.zero.addError "boom"⟩ :
        RequestResponseResult).IsValid
      = ((⟨Result.new, Result.new, Result.zero.addError "boom"⟩ :
          RequestResponseResult).Request.isValid
        && (⟨Result.new, Result.new, Result.zero.addError "boom"⟩ :
          RequestResponseResult).Response.isValid)) ∧
    (((⟨Result.new, Result.new, Result.zero.addError "boom"⟩ :
        RequestResponseResult).addResponseErrorError "e2").IsValid
      = (⟨Result.new, Result.new, Result.zero.addError "boom"⟩ :
          RequestResponseResult).IsValid) ∧
    mapLookup (filterValidMessages
        [("a", ⟨Result.new, Result.new, Result.zero.addError "boom"⟩)]) "a"
      = some ⟨Result.new, Result.new, Result.zero.addError "boom"⟩ := by
  have h := c10_responseError_not_in_validity
    ⟨Result.new, Result.new, Result.zero.addError "boom"⟩ "e2"
    [("a", ⟨Result.new, Result.new, Result.zero.addError "boom"⟩)] "a"
  exact ⟨h.1, h.2.1, h.2.2 (by decide) (by decide) (by decide)⟩
end Chargeflow
